import Mathlib

/-!
Shallow embedding of the order-lifecycle core of the local-retail e-commerce
backend: product catalogue rows, order creation with stock adjustment and
price aggregation (orders/serializers.py, OrderCreateSerializer), the status
update and cancellation operations (orders/views.py, OrderViewSet), and the
OrderItem persistence arithmetic (orders/models.py, OrderItem.save).
Currency values are modelled as exact rationals, timestamps as naturals, and
database rows as Lean structures restricted to the fields this workflow reads
or writes.
-/

namespace Retail

/-- Product rows (products/models.py) restricted to the fields the order
workflow reads and writes. -/
structure Product where
  id : Nat
  name : String
  sku : String
  shop_id : Nat
  price : ℚ
  sale_price : Option ℚ
  stock_quantity : Int
  sales_count : Int
  is_active : Bool
deriving Repr, DecidableEq

/-- Product.current_price: the sale price when it is set (truthy, hence
also nonzero) and strictly below the regular price, else the price. -/
def Product.current_price (p : Product) : ℚ :=
  match p.sale_price with
  | some sp => if sp ≠ 0 ∧ sp < p.price then sp else p.price
  | none => p.price

/-- Product.is_in_stock: stock_quantity strictly positive. -/
def Product.is_in_stock (p : Product) : Bool :=
  decide (0 < p.stock_quantity)

/-- OrderItem rows (orders/models.py) after save has filled the computed
fields. -/
structure OrderItem where
  product_id : Nat
  product_name : String
  product_sku : String
  unit_price : ℚ
  quantity : Int
  line_total : ℚ
  tax_rate : ℚ
  tax_amount : ℚ
deriving Repr, DecidableEq

/-- OrderItem.save (orders/models.py): computes line_total and the
price-inclusive tax extraction, and copies name and sku from the product.
The tax_rate argument is the model field value; the serializer never passes
one, so callers in order creation use the model default 19. -/
def OrderItem.save (product : Product) (unit_price : ℚ) (quantity : Int)
    (tax_rate : ℚ) : OrderItem :=
  let line_total := unit_price * quantity
  let tax_multiplier := tax_rate / 100
  let tax_amount := line_total * tax_multiplier / (1 + tax_multiplier)
  { product_id := product.id
    product_name := product.name
    product_sku := product.sku
    unit_price := unit_price
    quantity := quantity
    line_total := line_total
    tax_rate := tax_rate
    tax_amount := tax_amount }

/-- Order rows (orders/models.py) restricted to status, the monetary
aggregates, and the lifecycle timestamps. -/
structure Order where
  status : String
  subtotal : ℚ
  tax_amount : ℚ
  shipping_cost : ℚ
  discount_amount : ℚ
  tokens_used : Int
  tokens_value : ℚ
  total : ℚ
  confirmed_at : Option Nat
  shipped_at : Option Nat
  delivered_at : Option Nat
  cancelled_at : Option Nat
deriving Repr, DecidableEq

/-- Order.can_be_cancelled: status is pending or confirmed. -/
def Order.can_be_cancelled (o : Order) : Bool :=
  ["pending", "confirmed"].contains o.status

/-- OrderStatusHistory rows (orders/models.py): append-only audit records. -/
structure OrderStatusHistory where
  status : String
  notes : String
  changed_by : String
  created_at : Nat
deriving Repr, DecidableEq

/-- CustomerProfile rows (customers/models.py) restricted to the statistics
order creation updates. -/
structure CustomerProfile where
  total_orders : Nat
  total_spent : ℚ
deriving Repr, DecidableEq

/-- LoyaltyToken transaction rows (customers/models.py), newest first. -/
structure LoyaltyToken where
  amount : Int
  balance_after : Int
deriving Repr, DecidableEq

/-- LoyaltyToken.get_customer_balance: the balance_after of the newest
transaction, or 0 when the ledger is empty. -/
def get_customer_balance (txs : List LoyaltyToken) : Int :=
  match txs.head? with
  | some t => t.balance_after
  | none => 0

/-- The writable fields the order-create serializer accepts
(OrderCreateSerializer.Meta.fields in orders/serializers.py). -/
def order_create_serializer_fields : List String :=
  ["shipping_street_address", "shipping_city", "shipping_postal_code",
   "shipping_country", "customer_notes", "items"]

/-- One entry of the items list submitted to the order-create serializer. -/
structure ItemInput where
  product_id : Nat
  quantity : Int
deriving Repr, DecidableEq

/-- Validation failures of OrderCreateSerializer.validate_items, one
constructor per raise site. -/
inductive ValidationError
  | empty_order
  | quantity_not_positive
  | product_not_found (product_id : Nat)
  | out_of_stock (name : String)
  | insufficient_stock (name : String) (stock_quantity : Int)
deriving Repr, DecidableEq

/-- Product.objects.get(id=product_id, is_active=True): the first row whose
id matches and which is active. -/
def find_active_product (ps : List Product) (product_id : Nat) : Option Product :=
  ps.find? fun p => p.id == product_id && p.is_active

/-- Product.objects.get(id=product_id): the first row whose id matches. -/
def get_product (ps : List Product) (product_id : Nat) : Option Product :=
  ps.find? fun p => p.id == product_id

/-- Per-item checks of OrderCreateSerializer.validate_items. -/
def validate_item (ps : List Product) (item : ItemInput) :
    Except ValidationError Unit :=
  if item.quantity ≤ 0 then .error .quantity_not_positive
  else
    match find_active_product ps item.product_id with
    | none => .error (.product_not_found item.product_id)
    | some product =>
      if !product.is_in_stock then .error (.out_of_stock product.name)
      else if product.stock_quantity < item.quantity then
        .error (.insufficient_stock product.name product.stock_quantity)
      else .ok ()

/-- The for-loop of validate_items: every item is checked against the
product rows as they stand before the order, stopping at the first error. -/
def validate_items_loop (ps : List Product) :
    List ItemInput → Except ValidationError Unit
  | [] => .ok ()
  | item :: rest =>
    match validate_item ps item with
    | .error e => .error e
    | .ok () => validate_items_loop ps rest

/-- OrderCreateSerializer.validate_items: rejects an empty list, then runs
the per-item checks. -/
def validate_items (ps : List Product) (items : List ItemInput) :
    Except ValidationError Unit :=
  if items.isEmpty then .error .empty_order
  else validate_items_loop ps items

/-- The stock update of the create loop: the matched product row loses the
ordered quantity from stock_quantity and gains it on sales_count. -/
def reserve (ps : List Product) (product_id : Nat) (quantity : Int) :
    List Product :=
  ps.map fun p =>
    if p.id == product_id then
      { p with stock_quantity := p.stock_quantity - quantity,
               sales_count := p.sales_count + quantity }
    else p

/-- The item loop of OrderCreateSerializer.create: fetches each product,
persists an OrderItem snapshot at the current sellable price with the
default 19 percent tax rate, accumulates the subtotal, and applies the
stock update, threading the product rows left to right. -/
def create_items_loop (ps : List Product) :
    List ItemInput → Except ValidationError (List Product × List OrderItem × ℚ)
  | [] => .ok (ps, [], 0)
  | item :: rest =>
    match get_product ps item.product_id with
    | none => .error (.product_not_found item.product_id)
    | some product =>
      let order_item := OrderItem.save product product.current_price
        item.quantity 19
      match create_items_loop (reserve ps item.product_id item.quantity) rest with
      | .error e => .error e
      | .ok (ps2, rest_items, rest_subtotal) =>
        .ok (ps2, order_item :: rest_items, order_item.line_total + rest_subtotal)

/-- Everything order creation persists: the updated product rows, the
updated customer statistics, the order, its items, and the initial status
history. Shop resolution and the address fields are plumbing the order
arithmetic never reads and are not modelled. -/
structure CreateResult where
  products : List Product
  customer : CustomerProfile
  order : Order
  items : List OrderItem
  history : List OrderStatusHistory
deriving Repr, DecidableEq

/-- OrderCreateSerializer.create preceded by validate_items, exactly as the
create view runs them: validate, build the items while adjusting stock,
then set the aggregates (tax_amount = subtotal × 0.19, shipping 0.00 from a
subtotal of 50 else 4.99, total = subtotal + tax_amount + shipping_cost),
update the customer statistics, and append the initial history entry. -/
def order_create (ps : List Product) (customer : CustomerProfile)
    (items : List ItemInput) (username : String) (now : Nat) :
    Except ValidationError CreateResult :=
  match validate_items ps items with
  | .error e => .error e
  | .ok () =>
    match create_items_loop ps items with
    | .error e => .error e
    | .ok (ps2, order_items, subtotal) =>
      let tax_rate : ℚ := 19 / 100
      let tax_amount := subtotal * tax_rate
      let shipping_cost : ℚ := if 50 ≤ subtotal then 0 else 499 / 100
      let total := subtotal + tax_amount + shipping_cost
      let order : Order :=
        { status := "pending"
          subtotal := subtotal
          tax_amount := tax_amount
          shipping_cost := shipping_cost
          discount_amount := 0
          tokens_used := 0
          tokens_value := 0
          total := total
          confirmed_at := none
          shipped_at := none
          delivered_at := none
          cancelled_at := none }
      let customer2 : CustomerProfile :=
        { total_orders := customer.total_orders + 1
          total_spent := customer.total_spent + total }
      let history : List OrderStatusHistory :=
        [{ status := "pending", notes := "Order placed",
           changed_by := username, created_at := now }]
      .ok { products := ps2, customer := customer2, order := order,
            items := order_items, history := history }

/-- The declared status enum (Order.STATUS_CHOICES keys). -/
def valid_statuses : List String :=
  ["pending", "confirmed", "processing", "shipped", "delivered",
   "cancelled", "refunded"]

/-- Failures of OrderViewSet.update_status, one constructor per early
return. -/
inductive UpdateStatusError
  | permission_denied
  | status_required
  | invalid_status
deriving Repr, DecidableEq

/-- The status assignment and timestamp block of OrderViewSet.update_status:
the status is overwritten, and the if/elif chain stamps the timestamp of the
target status only when it is not already set. -/
def stamp_timestamps (o : Order) (ns : String) (now : Nat) : Order :=
  let o1 := { o with status := ns }
  if ns = "confirmed" ∧ o.confirmed_at = none then
    { o1 with confirmed_at := some now }
  else if ns = "shipped" ∧ o.shipped_at = none then
    { o1 with shipped_at := some now }
  else if ns = "delivered" ∧ o.delivered_at = none then
    { o1 with delivered_at := some now }
  else if ns = "cancelled" ∧ o.cancelled_at = none then
    { o1 with cancelled_at := some now }
  else o1

/-- OrderViewSet.update_status: permission gate, missing or empty status
rejected, target checked against the enum only, the stamp block applied,
then one history record appended with the caller notes or the generated
note built from the status before the change. -/
def update_status (o : Order) (hist : List OrderStatusHistory)
    (new_status : Option String) (notes : String) (username : String)
    (now : Nat) (is_owner_merchant : Bool) :
    Except UpdateStatusError (Order × List OrderStatusHistory) :=
  if !is_owner_merchant then .error .permission_denied
  else
    match new_status with
    | none => .error .status_required
    | some ns =>
      if ns = "" then .error .status_required
      else if ns ∈ valid_statuses then
        let note :=
          if notes = "" then
            "Status changed from " ++ o.status ++ " to " ++ ns
          else notes
        let entry : OrderStatusHistory :=
          { status := ns, notes := note, changed_by := username,
            created_at := now }
        .ok (stamp_timestamps o ns now, hist ++ [entry])
      else .error .invalid_status

/-- Failures of OrderViewSet.cancel, one constructor per early return. -/
inductive CancelError
  | not_cancellable (current_status : String)
  | permission_denied
deriving Repr, DecidableEq

/-- The stock restoration loop of OrderViewSet.cancel: every item adds its
quantity back to its product row and removes it from sales_count. -/
def release_items (ps : List Product) (items : List OrderItem) : List Product :=
  items.foldl
    (fun acc item =>
      acc.map fun p =>
        if p.id == item.product_id then
          { p with stock_quantity := p.stock_quantity + item.quantity,
                   sales_count := p.sales_count - item.quantity }
        else p)
    ps

/-- Everything cancellation touches or passes through: the order, the
product rows, the customer statistics, and the history. -/
structure CancelResult where
  order : Order
  products : List Product
  customer : CustomerProfile
  history : List OrderStatusHistory
deriving Repr, DecidableEq

/-- OrderViewSet.cancel: rejected unless can_be_cancelled, permission gate,
then status set to cancelled with cancelled_at stamped unconditionally, one
history record appended, and stock restored for every item. The customer
statistics are carried through untouched, as in the source. -/
def order_cancel (o : Order) (items : List OrderItem) (ps : List Product)
    (customer : CustomerProfile) (hist : List OrderStatusHistory)
    (reason : Option String) (username : String) (now : Nat)
    (is_customer is_merchant : Bool) : Except CancelError CancelResult :=
  if !o.can_be_cancelled then .error (.not_cancellable o.status)
  else if !(is_customer || is_merchant) then .error .permission_denied
  else
    let o2 := { o with status := "cancelled", cancelled_at := some now }
    let reason_text :=
      match reason with
      | some r => r
      | none => "No reason provided"
    let entry : OrderStatusHistory :=
      { status := "cancelled", notes := "Order cancelled: " ++ reason_text,
        changed_by := username, created_at := now }
    let hist2 := hist ++ [entry]
    .ok { order := o2, products := release_items ps items,
          customer := customer, history := hist2 }

/-- Sum of the line totals of a list of order items. -/
def line_total_sum : List OrderItem → ℚ
  | [] => 0
  | item :: rest => item.line_total + line_total_sum rest

/-- Sum of the tax amounts of a list of order items. -/
def tax_amount_sum : List OrderItem → ℚ
  | [] => 0
  | item :: rest => item.tax_amount + tax_amount_sum rest

/-- Total quantity a list of order items orders of one product. -/
def ordered_quantity : List OrderItem → Nat → Int
  | [], _ => 0
  | item :: rest, product_id =>
    (if item.product_id = product_id then item.quantity else 0) +
      ordered_quantity rest product_id

/-- The order of a successful creation. -/
def created_order : Except ValidationError CreateResult → Option Order
  | .ok r => some r.order
  | .error _ => none

/-- The items of a successful creation. -/
def created_items : Except ValidationError CreateResult → List OrderItem
  | .ok r => r.items
  | .error _ => []

/-- The product rows after a successful creation. -/
def created_products : Except ValidationError CreateResult → List Product
  | .ok r => r.products
  | .error _ => []

/-- The order after a status update, or the fallback on error. -/
def updated_order (fallback : Order) :
    Except UpdateStatusError (Order × List OrderStatusHistory) → Order
  | .ok (o, _) => o
  | .error _ => fallback

/-- The order after a cancellation, or the fallback on error. -/
def after_cancel (fallback : Order) : Except CancelError CancelResult → Order
  | .ok r => r.order
  | .error _ => fallback

/-- A catalogue row used by the concrete scenarios: 10.00 euro, 5 in stock. -/
def demo_product : Product :=
  { id := 1, name := "Mug", sku := "MUG-1", shop_id := 1, price := 10,
    sale_price := none, stock_quantity := 5, sales_count := 0,
    is_active := true }

/-- A fresh customer profile. -/
def demo_customer : CustomerProfile :=
  { total_orders := 0, total_spent := 0 }

/-- The flat-shipping scenario: one unit of the 10.00 euro product. -/
def demo_create : Except ValidationError CreateResult :=
  order_create [demo_product] demo_customer [⟨1, 1⟩] "anna" 0

/-- What the flat-shipping scenario persists. -/
def demo_result : CreateResult :=
  { products := [{ demo_product with stock_quantity := 4, sales_count := 1 }],
    customer := { total_orders := 1, total_spent := 1689 / 100 },
    order :=
      { status := "pending", subtotal := 10, tax_amount := 19 / 10,
        shipping_cost := 499 / 100, discount_amount := 0, tokens_used := 0,
        tokens_value := 0, total := 1689 / 100, confirmed_at := none,
        shipped_at := none, delivered_at := none, cancelled_at := none },
    items :=
      [{ product_id := 1, product_name := "Mug", product_sku := "MUG-1",
         unit_price := 10, quantity := 1, line_total := 10, tax_rate := 19,
         tax_amount := 190 / 119 }],
    history :=
      [{ status := "pending", notes := "Order placed", changed_by := "anna",
         created_at := 0 }] }

/-- The VAT round-trip scenario: a product priced 11.90 euro. -/
def vat_product : Product :=
  { id := 2, name := "Buch", sku := "BK-2", shop_id := 1, price := 119 / 10,
    sale_price := none, stock_quantity := 3, sales_count := 0,
    is_active := true }

/-- One unit of the 11.90 euro product. -/
def vat_create : Except ValidationError CreateResult :=
  order_create [vat_product] demo_customer [⟨2, 1⟩] "anna" 0

/-- What the VAT scenario persists: the item tax is the price-inclusive
1.90, the order-level tax is the additive 11.90 × 0.19 = 2.261. -/
def vat_result : CreateResult :=
  { products := [{ vat_product with stock_quantity := 2, sales_count := 1 }],
    customer := { total_orders := 1, total_spent := 19151 / 1000 },
    order :=
      { status := "pending", subtotal := 119 / 10, tax_amount := 2261 / 1000,
        shipping_cost := 499 / 100, discount_amount := 0, tokens_used := 0,
        tokens_value := 0, total := 19151 / 1000, confirmed_at := none,
        shipped_at := none, delivered_at := none, cancelled_at := none },
    items :=
      [{ product_id := 2, product_name := "Buch", product_sku := "BK-2",
         unit_price := 119 / 10, quantity := 1, line_total := 119 / 10,
         tax_rate := 19, tax_amount := 19 / 10 }],
    history :=
      [{ status := "pending", notes := "Order placed", changed_by := "anna",
         created_at := 0 }] }

/-- The free-shipping scenario: two units of a 25.00 euro product. -/
def bulk_product : Product :=
  { id := 4, name := "Vase", sku := "VSE-4", shop_id := 1, price := 25,
    sale_price := none, stock_quantity := 9, sales_count := 0,
    is_active := true }

/-- Two units of the 25.00 euro product, reaching the 50.00 threshold. -/
def bulk_create : Except ValidationError CreateResult :=
  order_create [bulk_product] demo_customer [⟨4, 2⟩] "anna" 0

/-- What the free-shipping scenario persists. -/
def bulk_result : CreateResult :=
  { products := [{ bulk_product with stock_quantity := 7, sales_count := 2 }],
    customer := { total_orders := 1, total_spent := 595 / 10 },
    order :=
      { status := "pending", subtotal := 50, tax_amount := 95 / 10,
        shipping_cost := 0, discount_amount := 0, tokens_used := 0,
        tokens_value := 0, total := 595 / 10, confirmed_at := none,
        shipped_at := none, delivered_at := none, cancelled_at := none },
    items :=
      [{ product_id := 4, product_name := "Vase", product_sku := "VSE-4",
         unit_price := 25, quantity := 2, line_total := 50, tax_rate := 19,
         tax_amount := 950 / 119 }],
    history :=
      [{ status := "pending", notes := "Order placed", changed_by := "anna",
         created_at := 0 }] }

/-- The duplicate-item scenario: 5 units in stock, ordered as two separate
lines of 3; each line passes validation against the pre-order stock. -/
def oversell_product : Product :=
  { id := 3, name := "Lampe", sku := "LMP-3", shop_id := 1, price := 5,
    sale_price := none, stock_quantity := 5, sales_count := 0,
    is_active := true }

/-- An order listing the same product twice, 3 + 3 units against 5. -/
def oversell_create : Except ValidationError CreateResult :=
  order_create [oversell_product] demo_customer [⟨3, 3⟩, ⟨3, 3⟩] "anna" 0

/-- What the duplicate-item order persists: both lines pass validation
against the pre-order stock of 5, and the loop then drives the stock to
−1. -/
def oversell_result : CreateResult :=
  { products :=
      [{ oversell_product with stock_quantity := -1, sales_count := 6 }],
    customer := { total_orders := 1, total_spent := 4069 / 100 },
    order :=
      { status := "pending", subtotal := 30, tax_amount := 57 / 10,
        shipping_cost := 499 / 100, discount_amount := 0, tokens_used := 0,
        tokens_value := 0, total := 4069 / 100, confirmed_at := none,
        shipped_at := none, delivered_at := none, cancelled_at := none },
    items :=
      [{ product_id := 3, product_name := "Lampe", product_sku := "LMP-3",
         unit_price := 5, quantity := 3, line_total := 15, tax_rate := 19,
         tax_amount := 285 / 119 },
       { product_id := 3, product_name := "Lampe", product_sku := "LMP-3",
         unit_price := 5, quantity := 3, line_total := 15, tax_rate := 19,
         tax_amount := 285 / 119 }],
    history :=
      [{ status := "pending", notes := "Order placed", changed_by := "anna",
         created_at := 0 }] }

/-- Cancelling the flat-shipping order right after creation. -/
def demo_cancel : Except CancelError CancelResult :=
  order_cancel demo_result.order demo_result.items demo_result.products
    demo_result.customer demo_result.history none "anna" 7 true false

/-- What that cancellation persists: the stock is back at 5, the customer
statistics and the monetary aggregates are untouched. -/
def demo_cancel_result : CancelResult :=
  { order :=
      { status := "cancelled", subtotal := 10, tax_amount := 19 / 10,
        shipping_cost := 499 / 100, discount_amount := 0, tokens_used := 0,
        tokens_value := 0, total := 1689 / 100, confirmed_at := none,
        shipped_at := none, delivered_at := none, cancelled_at := some 7 },
    products := [demo_product],
    customer := { total_orders := 1, total_spent := 1689 / 100 },
    history :=
      [{ status := "pending", notes := "Order placed", changed_by := "anna",
         created_at := 0 },
       { status := "cancelled",
         notes := "Order cancelled: No reason provided",
         changed_by := "anna", created_at := 7 }] }

/-- An order that has reached the terminal delivered status. -/
def delivered_order : Order :=
  { status := "delivered", subtotal := 10, tax_amount := 19 / 10,
    shipping_cost := 499 / 100, discount_amount := 0, tokens_used := 0,
    tokens_value := 0, total := 1689 / 100, confirmed_at := some 1,
    shipped_at := some 2, delivered_at := some 3, cancelled_at := none }

/-- Step 1 of the timestamp-overwrite scenario: the freshly created pending
order is status-updated to cancelled at time 3, stamping cancelled_at. -/
def reopen_after_cancel_status : Order :=
  updated_order demo_result.order
    (update_status demo_result.order [] (some "cancelled") "" "m" 3 true)

/-- Step 2: the same order is status-updated back to pending at time 5 —
the enum-only check allows it — keeping cancelled_at = 3. -/
def reopen_reopened : Order :=
  updated_order demo_result.order
    (update_status reopen_after_cancel_status [] (some "pending") "" "m" 5
      true)

/-- Step 3: the again-pending order is cancelled through the cancel
operation at time 9, which stamps cancelled_at unconditionally. -/
def reopen_cancelled_again : Order :=
  after_cancel demo_result.order
    (order_cancel reopen_reopened [] [] demo_customer [] none "m" 9 true
      false)

theorem demo_create_eq : demo_create = .ok demo_result := by
  simp [demo_create, demo_result, demo_product, demo_customer, order_create,
    validate_items, validate_items_loop, validate_item, find_active_product,
    get_product, create_items_loop, reserve, OrderItem.save,
    Product.current_price, Product.is_in_stock]
  norm_num

theorem vat_create_eq : vat_create = .ok vat_result := by
  simp [vat_create, vat_result, vat_product, demo_customer, order_create,
    validate_items, validate_items_loop, validate_item, find_active_product,
    get_product, create_items_loop, reserve, OrderItem.save,
    Product.current_price, Product.is_in_stock]
  norm_num

theorem bulk_create_eq : bulk_create = .ok bulk_result := by
  simp [bulk_create, bulk_result, bulk_product, demo_customer, order_create,
    validate_items, validate_items_loop, validate_item, find_active_product,
    get_product, create_items_loop, reserve, OrderItem.save,
    Product.current_price, Product.is_in_stock]
  norm_num

theorem demo_cancel_eq : demo_cancel = .ok demo_cancel_result := rfl

theorem oversell_create_eq : oversell_create = .ok oversell_result := by
  simp [oversell_create, oversell_result, oversell_product, demo_customer,
    order_create, validate_items, validate_items_loop, validate_item,
    find_active_product, get_product, create_items_loop, reserve,
    OrderItem.save, Product.current_price, Product.is_in_stock]
  norm_num

/-- Inversion of a successful order creation: the validation passed, the
item loop produced the persisted rows, and every aggregate is determined by
the subtotal. -/
theorem order_create_ok_shape (ps : List Product) (c : CustomerProfile)
    (items : List ItemInput) (u : String) (now : Nat) (r : CreateResult)
    (h : order_create ps c items u now = .ok r) :
    validate_items ps items = .ok () ∧
    create_items_loop ps items = .ok (r.products, r.items, r.order.subtotal) ∧
    r.order.status = "pending" ∧
    r.order.tax_amount = r.order.subtotal * (19 / 100) ∧
    r.order.shipping_cost = (if 50 ≤ r.order.subtotal then 0 else 499 / 100) ∧
    r.order.discount_amount = 0 ∧
    r.order.tokens_used = 0 ∧
    r.order.tokens_value = 0 ∧
    r.order.total =
      r.order.subtotal + r.order.tax_amount + r.order.shipping_cost ∧
    r.order.confirmed_at = none ∧ r.order.shipped_at = none ∧
    r.order.delivered_at = none ∧ r.order.cancelled_at = none ∧
    r.customer.total_orders = c.total_orders + 1 ∧
    r.customer.total_spent = c.total_spent + r.order.total ∧
    r.history = [{ status := "pending", notes := "Order placed",
                   changed_by := u, created_at := now }] := by
  unfold order_create at h
  split at h
  · exact absurd h (by simp)
  · split at h
    · exact absurd h (by simp)
    · next hloop =>
      injection h with h2
      subst h2
      refine ⟨by assumption, hloop, rfl, rfl, rfl, rfl, rfl, rfl, rfl, rfl,
        rfl, rfl, rfl, rfl, rfl, rfl⟩

/-- The accumulated subtotal of the create loop is the sum of the line
totals of the items it persists. -/
theorem create_items_loop_subtotal :
    ∀ (items : List ItemInput) (ps ps2 : List Product)
      (ois : List OrderItem) (subtotal : ℚ),
      create_items_loop ps items = .ok (ps2, ois, subtotal) →
      subtotal = line_total_sum ois := by
  intro items
  induction items with
  | nil =>
    intro ps ps2 ois subtotal h
    simp only [create_items_loop] at h
    injection h with h2
    injection h2 with hps h3
    injection h3 with hois hsub
    subst hois hsub
    simp [line_total_sum]
  | cons item rest ih =>
    intro ps ps2 ois subtotal h
    simp only [create_items_loop] at h
    split at h
    · exact absurd h (by simp)
    · split at h
      · exact absurd h (by simp)
      · next ps3 ois3 sub3 hloop =>
        injection h with h2
        injection h2 with hps h3
        injection h3 with hois hsub
        subst hois hsub
        simp [line_total_sum, ih _ _ _ _ hloop]

/-- Pointwise description of the stock restoration loop: every product row
gains the total ordered quantity of its id on stock_quantity and loses it
from sales_count. -/
theorem release_items_eq_map :
    ∀ (items : List OrderItem) (ps : List Product),
      release_items ps items = ps.map fun p =>
        { p with
            stock_quantity := p.stock_quantity + ordered_quantity items p.id,
            sales_count := p.sales_count - ordered_quantity items p.id } := by
  intro items
  induction items with
  | nil =>
    intro ps
    have h0 : release_items ps [] = ps := rfl
    have hf : (fun p : Product =>
        ({ p with
            stock_quantity := p.stock_quantity + ordered_quantity [] p.id,
            sales_count := p.sales_count - ordered_quantity [] p.id } :
          Product)) = fun p => p := by
      funext p
      simp [ordered_quantity]
    rw [h0, hf]
    simp
  | cons item rest ih =>
    intro ps
    have h0 : release_items ps (item :: rest) =
        release_items (ps.map fun p =>
          if p.id == item.product_id then
            { p with stock_quantity := p.stock_quantity + item.quantity,
                     sales_count := p.sales_count - item.quantity }
          else p) rest := rfl
    rw [h0, ih, List.map_map]
    apply List.map_congr_left
    intro p _
    by_cases hid : p.id = item.product_id
    · simp [Function.comp, hid, ordered_quantity, add_assoc, sub_sub]
    · simp [Function.comp, hid, ordered_quantity,
        show item.product_id ≠ p.id from fun h => hid h.symm]

/-- The stamp block always installs the requested status. -/
theorem stamp_timestamps_status (o : Order) (ns : String) (now : Nat) :
    (stamp_timestamps o ns now).status = ns := by
  unfold stamp_timestamps
  split_ifs <;> rfl

/-- The stamp block never changes a timestamp that is already set, and
stamps the timestamp of the target status when it is unset. -/
theorem stamp_timestamps_spec (o : Order) (ns : String) (now : Nat) :
    (∀ t, o.confirmed_at = some t →
      (stamp_timestamps o ns now).confirmed_at = some t) ∧
    (∀ t, o.shipped_at = some t →
      (stamp_timestamps o ns now).shipped_at = some t) ∧
    (∀ t, o.delivered_at = some t →
      (stamp_timestamps o ns now).delivered_at = some t) ∧
    (∀ t, o.cancelled_at = some t →
      (stamp_timestamps o ns now).cancelled_at = some t) ∧
    (ns = "confirmed" → o.confirmed_at = none →
      (stamp_timestamps o ns now).confirmed_at = some now) := by
  unfold stamp_timestamps
  split_ifs with h1 h2 h3 h4 <;>
    refine ⟨fun t ht => ?_, fun t ht => ?_, fun t ht => ?_, fun t ht => ?_,
      fun hn hc => ?_⟩ <;>
    simp_all

/-- A nonempty enum status is accepted by update_status regardless of the
current status, producing the stamped order and one appended record. -/
theorem update_status_ok (o : Order) (hist : List OrderStatusHistory)
    (ns notes u : String) (now : Nat) (hns : ns ≠ "")
    (hmem : ns ∈ valid_statuses) :
    update_status o hist (some ns) notes u now true =
      .ok (stamp_timestamps o ns now, hist ++
        [{ status := ns,
           notes := if notes = "" then
               "Status changed from " ++ o.status ++ " to " ++ ns
             else notes,
           changed_by := u, created_at := now }]) := by
  unfold update_status
  simp [hns, hmem]

/-- A status outside the enum is rejected. -/
theorem update_status_invalid (o : Order) (hist : List OrderStatusHistory)
    (ns notes u : String) (now : Nat) (hns : ns ≠ "")
    (hmem : ns ∉ valid_statuses) :
    update_status o hist (some ns) notes u now true =
      .error .invalid_status := by
  unfold update_status
  simp [hns, hmem]

/-- Inversion of a successful status update: the target was a nonempty
enum value and the order is the stamped one. -/
theorem update_status_ok_inv (o : Order) (hist : List OrderStatusHistory)
    (nso : Option String) (notes u : String) (now : Nat) (own : Bool)
    (o2 : Order) (h2 : List OrderStatusHistory)
    (h : update_status o hist nso notes u now own = .ok (o2, h2)) :
    ∃ ns, nso = some ns ∧ ¬ ns = "" ∧ ns ∈ valid_statuses ∧
      o2 = stamp_timestamps o ns now := by
  unfold update_status at h
  split at h
  · exact absurd h (by simp)
  · split at h
    · exact absurd h (by simp)
    · next hown nsopt ns2 =>
      split at h
      · exact absurd h (by simp)
      · next hne =>
        split at h
        · next hmem =>
          injection h with hpair
          injection hpair with ho hh
          exact ⟨ns2, rfl, hne, hmem, ho.symm⟩
        · exact absurd h (by simp)

/-- C1, counterexample: the claim says the persisted total equals
subtotal + shipping_cost - discount_amount - tokens_value, so one item at
10.00 with flat shipping 4.99 would give total = 14.99; the code persists
total = 16.89 for exactly that order, because the order-level tax is added
into the total. -/
theorem c1_total_counterexample :
    (created_order demo_create).map Order.total = some (1689 / 100) ∧
    (created_order demo_create).map Order.subtotal = some 10 ∧
    (created_order demo_create).map Order.shipping_cost = some (499 / 100) ∧
    (created_order demo_create).map Order.discount_amount = some 0 ∧
    (created_order demo_create).map Order.tokens_value = some 0 ∧
    (1689 / 100 : ℚ) ≠ 10 + 499 / 100 - 0 - 0 := by
  refine ⟨?_, ?_, ?_, ?_, ?_, by norm_num⟩ <;>
    rw [demo_create_eq] <;> simp [created_order, demo_result]

/-- C1, amended: for every successfully created order the persisted total
is subtotal + tax_amount + shipping_cost — the order-level tax amount IS
added into the total — while discount_amount and tokens_value are 0.00 at
creation and nothing is subtracted. -/
theorem c1_total_formula (ps : List Product) (c : CustomerProfile)
    (items : List ItemInput) (u : String) (now : Nat) (r : CreateResult)
    (h : order_create ps c items u now = .ok r) :
    r.order.total =
      r.order.subtotal + r.order.tax_amount + r.order.shipping_cost ∧
    r.order.discount_amount = 0 ∧ r.order.tokens_value = 0 := by
  obtain ⟨-, -, -, -, -, hdisc, -, htokv, htot, -, -, -, -, -, -, -⟩ :=
    order_create_ok_shape _ _ _ _ _ _ h
  exact ⟨htot, hdisc, htokv⟩

/-- C1, witness: the amended total formula evaluated on the concrete
flat-shipping scenario. -/
theorem c1_total_formula_witness :
    demo_result.order.total =
      demo_result.order.subtotal + demo_result.order.tax_amount +
        demo_result.order.shipping_cost ∧
    demo_result.order.discount_amount = 0 ∧
    demo_result.order.tokens_value = 0 :=
  c1_total_formula _ _ _ _ _ _ demo_create_eq

/-- C2, counterexample: for one item priced 11.90 at the default 19
percent rate the item-level price-inclusive tax sums to 1.90, but the
persisted order-level tax_amount is 11.90 × 0.19 = 2.261, so the order
tax is not the sum of the item taxes. -/
theorem c2_tax_counterexample :
    (created_order vat_create).map Order.tax_amount = some (2261 / 1000) ∧
    tax_amount_sum (created_items vat_create) = 19 / 10 ∧
    (2261 / 1000 : ℚ) ≠ 19 / 10 := by
  refine ⟨?_, ?_, by norm_num⟩ <;> rw [vat_create_eq] <;>
    simp [created_order, created_items, vat_result, tax_amount_sum]

/-- C2, amended: for every successfully created order the persisted
order-level tax_amount is subtotal × 0.19, computed additively on the
subtotal, not the sum of the per-item price-inclusive tax amounts. -/
theorem c2_tax_formula (ps : List Product) (c : CustomerProfile)
    (items : List ItemInput) (u : String) (now : Nat) (r : CreateResult)
    (h : order_create ps c items u now = .ok r) :
    r.order.tax_amount = r.order.subtotal * (19 / 100) := by
  obtain ⟨-, -, -, htax, -⟩ := order_create_ok_shape _ _ _ _ _ _ h
  exact htax

/-- C2, witness: the amended tax formula evaluated on the concrete 11.90
euro scenario. -/
theorem c2_tax_formula_witness :
    vat_result.order.tax_amount = vat_result.order.subtotal * (19 / 100) :=
  c2_tax_formula _ _ _ _ _ _ vat_create_eq

/-- C3, counterexample: order creation accepts no token count — none of
the writable serializer fields concerns tokens — and the created order
always carries tokens_used = 0 and tokens_value = 0.00, with no token
balance consulted and no insufficient-balance failure possible. -/
theorem c3_tokens_counterexample :
    "tokens_used" ∉ order_create_serializer_fields ∧
    "tokens_value" ∉ order_create_serializer_fields ∧
    "tokens" ∉ order_create_serializer_fields ∧
    (created_order demo_create).map Order.tokens_used = some 0 ∧
    (created_order demo_create).map Order.tokens_value = some 0 := by
  refine ⟨by decide, by decide, by decide, ?_, ?_⟩ <;>
    rw [demo_create_eq] <;> simp [created_order, demo_result]

/-- C3, amended: order creation accepts no loyalty-token count (the
writable serializer fields are only the shipping address fields, the
customer notes and the items), every successfully created order has
tokens_used = 0 and tokens_value = 0.00, and no token-balance check or
token debit occurs during creation. -/
theorem c3_no_token_redemption (ps : List Product) (c : CustomerProfile)
    (items : List ItemInput) (u : String) (now : Nat) (r : CreateResult)
    (h : order_create ps c items u now = .ok r) :
    r.order.tokens_used = 0 ∧ r.order.tokens_value = 0 ∧
    "tokens_used" ∉ order_create_serializer_fields := by
  obtain ⟨-, -, -, -, -, -, htoku, htokv, -⟩ :=
    order_create_ok_shape _ _ _ _ _ _ h
  exact ⟨htoku, htokv, by decide⟩

/-- C3, witness: the amended token statement evaluated on the concrete
flat-shipping scenario. -/
theorem c3_no_token_redemption_witness :
    demo_result.order.tokens_used = 0 ∧
    demo_result.order.tokens_value = 0 ∧
    "tokens_used" ∉ order_create_serializer_fields :=
  c3_no_token_redemption _ _ _ _ _ _ demo_create_eq

/-- C4, counterexample: a delivered (terminal) order is status-updated to
pending and the code accepts it, so accepted changes are not restricted to
the declared state graph. -/
theorem c4_graph_counterexample :
    update_status delivered_order [] (some "pending") "" "m" 9 true =
      .ok ({ delivered_order with status := "pending" },
        [{ status := "pending",
           notes := "Status changed from delivered to pending",
           changed_by := "m", created_at := 9 }]) := rfl

/-- C4, amended: a target status outside the declared enum is rejected with
the invalid-status error and no status outside the enum is reachable
through the status update; but within the enum every target is accepted
from every current status — the declared state graph is not enforced. -/
theorem c4_status_enum_only (o : Order) (hist : List OrderStatusHistory)
    (ns notes u : String) (now : Nat) (hns : ns ≠ "") :
    (ns ∈ valid_statuses →
      ∃ o2 h2,
        update_status o hist (some ns) notes u now true = .ok (o2, h2) ∧
        o2.status = ns) ∧
    (ns ∉ valid_statuses →
      update_status o hist (some ns) notes u now true =
        .error .invalid_status) ∧
    (∀ own o2 h2,
      update_status o hist (some ns) notes u now own = .ok (o2, h2) →
      o2.status ∈ valid_statuses) := by
  refine ⟨?_, ?_, ?_⟩
  · intro hmem
    exact ⟨_, _, update_status_ok o hist ns notes u now hns hmem,
      stamp_timestamps_status o ns now⟩
  · intro hmem
    exact update_status_invalid o hist ns notes u now hns hmem
  · intro own o2 h2 h
    obtain ⟨ns2, hsome, -, hmem, ho⟩ :=
      update_status_ok_inv _ _ _ _ _ _ _ _ _ h
    injection hsome with hns2
    subst hns2
    rw [ho, stamp_timestamps_status]
    exact hmem

/-- C4, witness: the delivered order accepts the non-successor target
processing, and rejects the target express, which is outside the enum. -/
theorem c4_status_enum_only_witness :
    (∃ o2 h2,
      update_status delivered_order [] (some "processing") "" "m" 9 true =
        .ok (o2, h2) ∧ o2.status = "processing") ∧
    update_status delivered_order [] (some "express") "" "m" 9 true =
      .error .invalid_status :=
  ⟨(c4_status_enum_only delivered_order [] "processing" "" "m" 9
      (by decide)).1 (by decide),
   (c4_status_enum_only delivered_order [] "express" "" "m" 9
      (by decide)).2.1 (by decide)⟩

/-- C8: every saved order item has line_total = unit_price × quantity and
tax_amount = line_total × (tax_rate/100) / (1 + tax_rate/100), both exact
in rational arithmetic, and the subtotal of every successfully created
order is the sum of the line totals of its items. -/
theorem c8_item_arithmetic (product : Product) (up : ℚ) (q : Int) (tr : ℚ) :
    ((OrderItem.save product up q tr).line_total = up * q ∧
     (OrderItem.save product up q tr).tax_amount =
       (up * q) * (tr / 100) / (1 + tr / 100)) ∧
    (∀ (ps : List Product) (c : CustomerProfile) (items : List ItemInput)
       (u : String) (now : Nat) (r : CreateResult),
       order_create ps c items u now = .ok r →
       r.order.subtotal = line_total_sum r.items) := by
  refine ⟨⟨rfl, rfl⟩, ?_⟩
  intro ps c items u now r h
  obtain ⟨-, hloop, -⟩ := order_create_ok_shape _ _ _ _ _ _ h
  exact create_items_loop_subtotal _ _ _ _ _ hloop

/-- C8, witness: the 11.90 euro item at 19 percent from the claim, whose
extracted tax is exactly 1.90, and the subtotal equation on its order. -/
theorem c8_item_arithmetic_witness :
    ((OrderItem.save vat_product (119 / 10) 1 19).line_total =
        119 / 10 * 1 ∧
     (OrderItem.save vat_product (119 / 10) 1 19).tax_amount =
        (119 / 10 * 1) * (19 / 100) / (1 + 19 / 100)) ∧
    ((OrderItem.save vat_product (119 / 10) 1 19).tax_amount = 19 / 10 ∧
     vat_result.order.subtotal = line_total_sum vat_result.items) :=
  ⟨(c8_item_arithmetic vat_product (119 / 10) 1 19).1,
   by norm_num [OrderItem.save],
   (c8_item_arithmetic vat_product (119 / 10) 1 19).2 _ _ _ _ _ _
     vat_create_eq⟩

/-- C9: every successfully created order is charged shipping 0.00 when its
subtotal reaches 50, and the flat 4.99 otherwise. -/
theorem c9_shipping_cost (ps : List Product) (c : CustomerProfile)
    (items : List ItemInput) (u : String) (now : Nat) (r : CreateResult)
    (h : order_create ps c items u now = .ok r) :
    (50 ≤ r.order.subtotal → r.order.shipping_cost = 0) ∧
    (r.order.subtotal < 50 → r.order.shipping_cost = 499 / 100) := by
  obtain ⟨-, -, -, -, hship, -⟩ := order_create_ok_shape _ _ _ _ _ _ h
  constructor
  · intro hle
    rw [hship, if_pos hle]
  · intro hlt
    rw [hship, if_neg (not_le.mpr hlt)]

/-- C9, witness: the 50.00 order ships free, the 10.00 order pays 4.99. -/
theorem c9_shipping_cost_witness :
    bulk_result.order.shipping_cost = 0 ∧
    demo_result.order.shipping_cost = 499 / 100 :=
  ⟨(c9_shipping_cost _ _ _ _ _ _ bulk_create_eq).1
      (by norm_num [bulk_result]),
   (c9_shipping_cost _ _ _ _ _ _ demo_create_eq).2
      (by norm_num [demo_result])⟩

/-- C10: cancellation carries the customer statistics through unchanged and
leaves every monetary field of the order as it was, while creation is what
increments total_orders by one and total_spent by the order total. -/
theorem c10_cancel_frame (o : Order) (items : List OrderItem)
    (ps : List Product) (c : CustomerProfile)
    (hist : List OrderStatusHistory) (reason : Option String) (u : String)
    (now : Nat) (ic im : Bool) :
    (∀ r, order_cancel o items ps c hist reason u now ic im = .ok r →
      r.customer = c ∧
      r.order.subtotal = o.subtotal ∧
      r.order.tax_amount = o.tax_amount ∧
      r.order.shipping_cost = o.shipping_cost ∧
      r.order.discount_amount = o.discount_amount ∧
      r.order.tokens_used = o.tokens_used ∧
      r.order.tokens_value = o.tokens_value ∧
      r.order.total = o.total) ∧
    (∀ ps2 c2 items2 u2 now2 r2,
      order_create ps2 c2 items2 u2 now2 = .ok r2 →
      r2.customer.total_orders = c2.total_orders + 1 ∧
      r2.customer.total_spent = c2.total_spent + r2.order.total) := by
  constructor
  · intro r h
    unfold order_cancel at h
    split at h
    · exact absurd h (by simp)
    · split at h
      · exact absurd h (by simp)
      · injection h with h2
        subst h2
        exact ⟨rfl, rfl, rfl, rfl, rfl, rfl, rfl, rfl⟩
  · intro ps2 c2 items2 u2 now2 r2 h
    obtain ⟨-, -, -, -, -, -, -, -, -, -, -, -, -, horders, hspent, -⟩ :=
      order_create_ok_shape _ _ _ _ _ _ h
    exact ⟨horders, hspent⟩

/-- C10, witness: the cancel frame on the concrete cancellation of the
flat-shipping order, and the creation increments on the same order. -/
theorem c10_cancel_frame_witness :
    demo_cancel_result.customer = demo_result.customer ∧
    demo_cancel_result.order.total = demo_result.order.total ∧
    demo_result.customer.total_orders = demo_customer.total_orders + 1 ∧
    demo_result.customer.total_spent =
      demo_customer.total_spent + demo_result.order.total := by
  have h := c10_cancel_frame demo_result.order demo_result.items
    demo_result.products demo_result.customer demo_result.history none
    "anna" 7 true false
  obtain ⟨hc, -, -, -, -, -, -, htot⟩ :=
    h.1 demo_cancel_result demo_cancel_eq
  obtain ⟨ho, hs⟩ := h.2 _ _ _ _ _ _ demo_create_eq
  exact ⟨hc, htot, ho, hs⟩

/-- C5: cancelling a pending or confirmed order by an authorized caller
succeeds: status becomes cancelled exactly once (a second cancellation of
the result is rejected), cancelled_at is stamped, one history record is
appended, and every product row gains back the total quantity the items
ordered of it; when can_be_cancelled is false the operation fails with the
not-cancellable error and produces no new state. -/
theorem c5_cancel_behaviour (o : Order) (items : List OrderItem)
    (ps : List Product) (c : CustomerProfile)
    (hist : List OrderStatusHistory) (reason : Option String) (u : String)
    (now : Nat) (ic im : Bool) :
    (o.can_be_cancelled = false →
      order_cancel o items ps c hist reason u now ic im =
        .error (.not_cancellable o.status)) ∧
    ((o.status = "pending" ∨ o.status = "confirmed") → (ic || im) = true →
      ∃ r, order_cancel o items ps c hist reason u now ic im = .ok r ∧
        r.order.status = "cancelled" ∧
        r.order.cancelled_at = some now ∧
        r.history = hist ++
          [{ status := "cancelled",
             notes :=
               "Order cancelled: " ++ reason.getD "No reason provided",
             changed_by := u, created_at := now }] ∧
        r.products = ps.map (fun p =>
          { p with
              stock_quantity :=
                p.stock_quantity + ordered_quantity items p.id,
              sales_count :=
                p.sales_count - ordered_quantity items p.id }) ∧
        (∀ items2 ps2 c2 hist2 reason2 u2 now2 ic2 im2,
          order_cancel r.order items2 ps2 c2 hist2 reason2 u2 now2 ic2
            im2 = .error (.not_cancellable "cancelled"))) := by
  constructor
  · intro hcan
    simp [order_cancel, hcan]
  · intro hst hperm
    have hcan : o.can_be_cancelled = true := by
      rcases hst with h | h <;> simp [Order.can_be_cancelled, h]
    refine ⟨{ order := { o with status := "cancelled",
                                cancelled_at := some now },
              products := release_items ps items, customer := c,
              history := hist ++
                [{ status := "cancelled",
                   notes := "Order cancelled: " ++
                     reason.getD "No reason provided",
                   changed_by := u, created_at := now }] },
      ?_, rfl, rfl, rfl, ?_, ?_⟩
    · simp only [order_cancel, hcan, hperm, Bool.not_true,
        Bool.false_eq_true, if_false]
      cases reason <;> rfl
    · exact release_items_eq_map items ps
    · intro items2 ps2 c2 hist2 reason2 u2 now2 ic2 im2
      simp [order_cancel, Order.can_be_cancelled]

/-- C5, witness: the delivered order is rejected, the freshly created
pending order is cancelled with status cancelled. -/
theorem c5_cancel_behaviour_witness :
    order_cancel delivered_order [] [] demo_customer [] none "u" 7 true
      false = .error (.not_cancellable "delivered") ∧
    (∃ r, order_cancel demo_result.order demo_result.items
        demo_result.products demo_result.customer demo_result.history none
        "anna" 7 true false = .ok r ∧ r.order.status = "cancelled") := by
  constructor
  · exact (c5_cancel_behaviour delivered_order [] [] demo_customer [] none
      "u" 7 true false).1 rfl
  · obtain ⟨r, hr, hstatus, -⟩ :=
      (c5_cancel_behaviour demo_result.order demo_result.items
        demo_result.products demo_result.customer demo_result.history none
        "anna" 7 true false).2 (Or.inl rfl) rfl
    exact ⟨r, hr, hstatus⟩

/-- C6: the failing input of the stock claim — the same product twice in
one order, 3 + 3 units against a stock of 5. Both lines pass validation
because each is checked against the pre-order stock, creation succeeds,
and the persisted stock_quantity is −1, contradicting the claim (and the
non-negative constraint declared on the model field) that a reservation
beyond stock always fails and stock never becomes negative. -/
theorem c6_stock_goes_negative :
    (created_products oversell_create).map Product.stock_quantity = [-1] ∧
    (created_order oversell_create).isSome = true := by
  rw [oversell_create_eq]
  constructor <;>
    simp [created_products, created_order, oversell_result,
      oversell_product]

/-- C7, counterexample: a pending order with cancelled_at already set is
reachable (create, status-update to cancelled at time 3, status-update
back to pending at time 5); cancelling it at time 9 overwrites the stamp
3 with 9, so a set lifecycle timestamp is not preserved by every later
operation. -/
theorem c7_overwrite_counterexample :
    reopen_after_cancel_status.cancelled_at = some 3 ∧
    reopen_reopened.status = "pending" ∧
    reopen_reopened.cancelled_at = some 3 ∧
    reopen_cancelled_again.cancelled_at = some 9 :=
  ⟨rfl, rfl, rfl, rfl⟩

/-- C7, amended: the status-update operation stamps each lifecycle
timestamp only on the first transition into its status and never
overwrites one that is already set; the cancel operation, however, stamps
cancelled_at unconditionally with the cancellation time, overwriting any
prior value. -/
theorem c7_timestamp_discipline (o : Order) (hist : List OrderStatusHistory)
    (ns notes u : String) (now : Nat) (own : Bool) :
    (∀ o2 h2,
      update_status o hist (some ns) notes u now own = .ok (o2, h2) →
      (∀ t, o.confirmed_at = some t → o2.confirmed_at = some t) ∧
      (∀ t, o.shipped_at = some t → o2.shipped_at = some t) ∧
      (∀ t, o.delivered_at = some t → o2.delivered_at = some t) ∧
      (∀ t, o.cancelled_at = some t → o2.cancelled_at = some t) ∧
      (ns = "confirmed" → o.confirmed_at = none →
        o2.confirmed_at = some now)) ∧
    (∀ items ps c hist2 reason u2 now2 ic im r,
      order_cancel o items ps c hist2 reason u2 now2 ic im = .ok r →
      r.order.cancelled_at = some now2) := by
  constructor
  · intro o2 h2 h
    obtain ⟨ns2, hsome, -, -, ho⟩ :=
      update_status_ok_inv _ _ _ _ _ _ _ _ _ h
    injection hsome with hns2
    subst hns2
    subst ho
    exact stamp_timestamps_spec o ns now
  · intro items ps c hist2 reason u2 now2 ic im r h
    unfold order_cancel at h
    split at h
    · exact absurd h (by simp)
    · split at h
      · exact absurd h (by simp)
      · injection h with h2
        subst h2
        rfl

/-- C7, witness: the update of the delivered order to processing keeps its
shipped_at stamp, and the concrete cancellation stamps cancelled_at with
the cancellation time. -/
theorem c7_timestamp_discipline_witness :
    ({ delivered_order with status := "processing" } : Order).shipped_at =
      some 2 ∧
    demo_cancel_result.order.cancelled_at = some 7 := by
  constructor
  · exact ((c7_timestamp_discipline delivered_order [] "processing" "" "m"
      9 true).1 { delivered_order with status := "processing" }
      [{ status := "processing",
         notes := "Status changed from delivered to processing",
         changed_by := "m", created_at := 9 }] rfl).2.1 2 rfl
  · exact (c7_timestamp_discipline demo_result.order demo_result.history
      "pending" "" "m" 9 true).2 demo_result.items demo_result.products
      demo_result.customer demo_result.history none "anna" 7 true false
      demo_cancel_result demo_cancel_eq

end Retail
